import Mathlib

/-!
Shallow embedding of the spaced-repetition scheduling engine of the
NSBN backend (`IntervalCalculator` in `utils/intervalCalculator.ts`,
`SpacedRepetitionService` in `services/spacedRepetition.ts`, types in
`types/spacedRepetition.ts`), together with proofs of the spec's
properties about it.

Modelling conventions:
* JavaScript numbers are modelled as rationals (`ℚ`); the decimal
  constants of the source (0.2, 0.15, 0.25, 1.3, 2.5, 0.1, 1.2) are
  written as exact fractions.
* `Date` values are epoch milliseconds, modelled as `ℚ`; `new Date()`
  read inside a method becomes an explicit `now : ℚ` argument.
* `Math.floor` becomes `Int.floor` (cast back to `ℚ`), `Math.max`/`Math.min`
  become `max`/`min`.
* JavaScript out-of-range array indexing yields `undefined`; it is
  modelled as `0`, which like `undefined` is falsy (so `a[i] || a[0]`
  falls through to `a[0]`) and is not `≥ 1`.
-/

namespace NSBN

/-- Source: `type Rating = "again" | "hard" | "good" | "easy"` (types/spacedRepetition.ts). -/
inductive Rating
  | again
  | hard
  | good
  | easy
deriving DecidableEq, Repr

/-- Source: `type CardState = "NEW" | "LEARNING" | "REVIEW" | "RELEARNING"`. -/
inductive CardState
  | NEW
  | LEARNING
  | REVIEW
  | RELEARNING
deriving DecidableEq, Repr

/-- Source: `interface SpacedRepetitionConfig` (types/spacedRepetition.ts). -/
structure SpacedRepetitionConfig where
  learningSteps : List ℚ
  graduatingInterval : ℚ
  easyInterval : ℚ
  minEaseFactor : ℚ
  maxEaseFactor : ℚ
  initialEaseFactor : ℚ
  lapseMultiplier : ℚ
  hardMultiplier : ℚ
  easyBonus : ℚ
deriving DecidableEq, Repr

/-- Source: `DEFAULT_CONFIG` (types/spacedRepetition.ts): learningSteps [1,10] minutes,
graduatingInterval 1 day, easyInterval 4 days, ease bounds 1.3–2.5, initial
2.5, lapseMultiplier 0.1, hardMultiplier 1.2, easyBonus 1.3. -/
def DEFAULT_CONFIG : SpacedRepetitionConfig where
  learningSteps := [1, 10]
  graduatingInterval := 1
  easyInterval := 4
  minEaseFactor := 13 / 10
  maxEaseFactor := 5 / 2
  initialEaseFactor := 5 / 2
  lapseMultiplier := 1 / 10
  hardMultiplier := 6 / 5
  easyBonus := 13 / 10

/-- Source: `interface ReviewResult` (types/spacedRepetition.ts); `newDueDate` in
epoch milliseconds. -/
structure ReviewResult where
  newInterval : ℚ
  newDueDate : ℚ
  newEaseFactor : ℚ
  newCardState : CardState
  newLearningStep : ℕ
  lapseCountIncrement : ℕ
deriving DecidableEq, Repr

/-- Source: `interface NextReviewOptions` (types/spacedRepetition.ts). -/
structure NextReviewOptions where
  again : ℚ
  hard : ℚ
  good : ℚ
  easy : ℚ
deriving DecidableEq, Repr

/-- JavaScript `Math.floor`, kept in `ℚ`. -/
def jsFloor (q : ℚ) : ℚ := ((⌊q⌋ : ℤ) : ℚ)

/-- JavaScript array indexing `a[i]`; out of range the source yields
`undefined`, modelled as `0`. -/
def jsIndex (l : List ℚ) (i : ℕ) : ℚ := l.getD i 0

/-- JavaScript `a[i] || a[0]` as used for `learningSteps` in the source:
a falsy entry (`undefined` for out-of-range, or a literal `0`) falls back
to `a[0]`. -/
def jsIndexOrFirst (l : List ℚ) (i : ℕ) : ℚ :=
  if jsIndex l i = 0 then jsIndex l 0 else jsIndex l i

/-- Source: `IntervalCalculator.addMinutes` (intervalCalculator.ts):
`new Date(date.getTime() + minutes * 60 * 1000)`. -/
def addMinutes (date minutes : ℚ) : ℚ := date + minutes * 60 * 1000

/-- Source: `IntervalCalculator.addDays` (intervalCalculator.ts):
`new Date(date.getTime() + days * 24 * 60 * 60 * 1000)`. -/
def addDays (date days : ℚ) : ℚ := date + days * 24 * 60 * 60 * 1000

/-- Source: `IntervalCalculator.handleNewCard` (intervalCalculator.ts lines 65–111).
`now` is the `new Date()` the method reads. -/
def handleNewCard (config : SpacedRepetitionConfig) (now : ℚ)
    (rating : Rating) : ReviewResult :=
  match rating with
  | .again =>
      { newInterval := jsIndex config.learningSteps 0
        newDueDate := addMinutes now (jsIndex config.learningSteps 0)
        newEaseFactor := config.initialEaseFactor
        newCardState := .LEARNING
        newLearningStep := 0
        lapseCountIncrement := 0 }
  | .hard =>
      { newInterval := jsIndex config.learningSteps 0
        newDueDate := addMinutes now (jsIndex config.learningSteps 0)
        newEaseFactor := config.initialEaseFactor
        newCardState := .LEARNING
        newLearningStep := 0
        lapseCountIncrement := 0 }
  | .good =>
      -- const nextStep = this.config.learningSteps[1] || this.config.learningSteps[0];
      let nextStep := jsIndexOrFirst config.learningSteps 1
      { newInterval := nextStep
        newDueDate := addMinutes now nextStep
        newEaseFactor := config.initialEaseFactor
        newCardState := .LEARNING
        newLearningStep := 1
        lapseCountIncrement := 0 }
  | .easy =>
      { newInterval := config.easyInterval
        newDueDate := addDays now config.easyInterval
        newEaseFactor := config.initialEaseFactor
        newCardState := .REVIEW
        newLearningStep := 0
        lapseCountIncrement := 0 }

/-- Source: `IntervalCalculator.handleLearningCard` (intervalCalculator.ts lines 116–182). -/
def handleLearningCard (config : SpacedRepetitionConfig) (now : ℚ)
    (rating : Rating) (currentStep : ℕ) : ReviewResult :=
  match rating with
  | .again =>
      { newInterval := jsIndex config.learningSteps 0
        newDueDate := addMinutes now (jsIndex config.learningSteps 0)
        newEaseFactor := config.initialEaseFactor
        newCardState := .LEARNING
        newLearningStep := 0
        lapseCountIncrement := 0 }
  | .hard =>
      -- learningSteps[currentStep] || learningSteps[0]
      let currentStepInterval := jsIndexOrFirst config.learningSteps currentStep
      { newInterval := currentStepInterval
        newDueDate := addMinutes now currentStepInterval
        newEaseFactor := config.initialEaseFactor
        newCardState := .LEARNING
        newLearningStep := currentStep
        lapseCountIncrement := 0 }
  | .good =>
      let nextStep := currentStep + 1
      if config.learningSteps.length ≤ nextStep then
        -- graduate to review
        { newInterval := config.graduatingInterval
          newDueDate := addDays now config.graduatingInterval
          newEaseFactor := config.initialEaseFactor
          newCardState := .REVIEW
          newLearningStep := 0
          lapseCountIncrement := 0 }
      else
        let nextStepInterval := jsIndex config.learningSteps nextStep
        { newInterval := nextStepInterval
          newDueDate := addMinutes now nextStepInterval
          newEaseFactor := config.initialEaseFactor
          newCardState := .LEARNING
          newLearningStep := nextStep
          lapseCountIncrement := 0 }
  | .easy =>
      { newInterval := config.easyInterval
        newDueDate := addDays now config.easyInterval
        newEaseFactor := config.initialEaseFactor
        newCardState := .REVIEW
        newLearningStep := 0
        lapseCountIncrement := 0 }

/-- Source: `IntervalCalculator.handleReviewCard` (intervalCalculator.ts lines 187–262).
On `again` the source also computes the decayed interval
`Math.max(1, Math.floor(adjustedInterval * lapseMultiplier))` and then
discards it, returning the first learning step instead; the discarded
computation is reproduced as an unused binding. -/
def handleReviewCard (config : SpacedRepetitionConfig) (now : ℚ)
    (rating : Rating) (currentInterval currentEaseFactor daysLate : ℚ) :
    ReviewResult :=
  let adjustedInterval : ℚ :=
    max 1 (currentInterval + jsFloor (daysLate * (1 / 4)))
  match rating with
  | .again =>
      let newEaseFactor :=
        max config.minEaseFactor (currentEaseFactor - 1 / 5)
      let _decayed :=
        max 1 (jsFloor (adjustedInterval * config.lapseMultiplier))
      { newInterval := jsIndex config.learningSteps 0
        newDueDate := addMinutes now (jsIndex config.learningSteps 0)
        newEaseFactor := newEaseFactor
        newCardState := .RELEARNING
        newLearningStep := 0
        lapseCountIncrement := 1 }
  | .hard =>
      let newEaseFactor :=
        max config.minEaseFactor (currentEaseFactor - 3 / 20)
      let newInterval :=
        max 1 (jsFloor (adjustedInterval * config.hardMultiplier))
      { newInterval := newInterval
        newDueDate := addDays now newInterval
        newEaseFactor := newEaseFactor
        newCardState := .REVIEW
        newLearningStep := 0
        lapseCountIncrement := 0 }
  | .good =>
      let newInterval :=
        max 1 (jsFloor (adjustedInterval * currentEaseFactor))
      { newInterval := newInterval
        newDueDate := addDays now newInterval
        newEaseFactor := currentEaseFactor
        newCardState := .REVIEW
        newLearningStep := 0
        lapseCountIncrement := 0 }
  | .easy =>
      let newEaseFactor :=
        min config.maxEaseFactor (currentEaseFactor + 3 / 20)
      let newInterval :=
        max 1 (jsFloor (adjustedInterval * newEaseFactor * config.easyBonus))
      { newInterval := newInterval
        newDueDate := addDays now newInterval
        newEaseFactor := newEaseFactor
        newCardState := .REVIEW
        newLearningStep := 0
        lapseCountIncrement := 0 }

/-- Source: `IntervalCalculator.handleRelearningCard` (intervalCalculator.ts lines 267–341). -/
def handleRelearningCard (config : SpacedRepetitionConfig) (now : ℚ)
    (rating : Rating) (currentInterval currentEaseFactor : ℚ)
    (currentStep : ℕ) : ReviewResult :=
  match rating with
  | .again =>
      { newInterval := jsIndex config.learningSteps 0
        newDueDate := addMinutes now (jsIndex config.learningSteps 0)
        newEaseFactor := currentEaseFactor
        newCardState := .RELEARNING
        newLearningStep := 0
        lapseCountIncrement := 0 }
  | .hard =>
      let currentStepInterval := jsIndexOrFirst config.learningSteps currentStep
      { newInterval := currentStepInterval
        newDueDate := addMinutes now currentStepInterval
        newEaseFactor := currentEaseFactor
        newCardState := .RELEARNING
        newLearningStep := currentStep
        lapseCountIncrement := 0 }
  | .good =>
      let nextStep := currentStep + 1
      if config.learningSteps.length ≤ nextStep then
        let newInterval :=
          max 1 (jsFloor (currentInterval * config.lapseMultiplier))
        { newInterval := newInterval
          newDueDate := addDays now newInterval
          newEaseFactor := currentEaseFactor
          newCardState := .REVIEW
          newLearningStep := 0
          lapseCountIncrement := 0 }
      else
        let nextStepInterval := jsIndex config.learningSteps nextStep
        { newInterval := nextStepInterval
          newDueDate := addMinutes now nextStepInterval
          newEaseFactor := currentEaseFactor
          newCardState := .RELEARNING
          newLearningStep := nextStep
          lapseCountIncrement := 0 }
  | .easy =>
      let newInterval :=
        max 1 (jsFloor (currentInterval * config.lapseMultiplier))
      { newInterval := newInterval
        newDueDate := addDays now newInterval
        newEaseFactor := currentEaseFactor
        newCardState := .REVIEW
        newLearningStep := 0
        lapseCountIncrement := 0 }

/-- Source: `IntervalCalculator.calculateReview` (intervalCalculator.ts lines 20–60);
the spec calls it `computeReview`. The four-constructor `CardState` makes the
`default: throw` branch of the source unreachable. -/
def calculateReview (config : SpacedRepetitionConfig) (now : ℚ)
    (currentState : CardState) (currentInterval currentEaseFactor : ℚ)
    (currentLearningStep : ℕ) (rating : Rating) (daysLate : ℚ) :
    ReviewResult :=
  match currentState with
  | .NEW => handleNewCard config now rating
  | .LEARNING => handleLearningCard config now rating currentLearningStep
  | .REVIEW =>
      handleReviewCard config now rating currentInterval currentEaseFactor
        daysLate
  | .RELEARNING =>
      handleRelearningCard config now rating currentInterval currentEaseFactor
        currentLearningStep

/-- Source: `IntervalCalculator.isMinuteInterval` (intervalCalculator.ts lines 439–441):
true when the card state keeps intervals in minutes. The `interval` argument
is accepted and ignored, as in the source. -/
def isMinuteInterval (_interval : ℚ) (cardState : CardState) : Bool :=
  cardState = .LEARNING || cardState = .RELEARNING

/-- Source: `IntervalCalculator.daysToDays` (intervalCalculator.ts lines 446–448):
the identity conversion. -/
def daysToDays (days : ℚ) : ℚ := days

/-- Source: `IntervalCalculator.getNextReviewOptions` (intervalCalculator.ts lines
346–400): one `calculateReview` per rating, then the interval of each result,
passed through `daysToDays` when it is not a minute interval. -/
def getNextReviewOptions (config : SpacedRepetitionConfig) (now : ℚ)
    (currentState : CardState) (currentInterval currentEaseFactor : ℚ)
    (currentLearningStep : ℕ) (daysLate : ℚ) : NextReviewOptions :=
  let again := calculateReview config now currentState currentInterval
    currentEaseFactor currentLearningStep .again daysLate
  let hard := calculateReview config now currentState currentInterval
    currentEaseFactor currentLearningStep .hard daysLate
  let good := calculateReview config now currentState currentInterval
    currentEaseFactor currentLearningStep .good daysLate
  let easy := calculateReview config now currentState currentInterval
    currentEaseFactor currentLearningStep .easy daysLate
  { again :=
      if isMinuteInterval again.newInterval again.newCardState then
        again.newInterval
      else daysToDays again.newInterval
    hard :=
      if isMinuteInterval hard.newInterval hard.newCardState then
        hard.newInterval
      else daysToDays hard.newInterval
    good :=
      if isMinuteInterval good.newInterval good.newCardState then
        good.newInterval
      else daysToDays good.newInterval
    easy :=
      if isMinuteInterval easy.newInterval easy.newCardState then
        easy.newInterval
      else daysToDays easy.newInterval }

/-- Source: `IntervalCalculator.calculatePriority` (intervalCalculator.ts lines
405–434). `dueDate` is nullable; `now` is the `new Date()` the method reads.
`lapseCount` is a non-negative database integer. -/
def calculatePriority (config : SpacedRepetitionConfig) (dueDate : Option ℚ)
    (easeFactor : ℚ) (lapseCount : ℕ) (cardState : CardState) (now : ℚ) : ℚ :=
  match dueDate with
  | none => 0
  | some dd =>
      let daysOverdue : ℚ :=
        max 0 (jsFloor ((now - dd) / (1000 * 60 * 60 * 24)))
      let priority := daysOverdue * 10
      let priority := priority + (config.maxEaseFactor - easeFactor) * 5
      let priority := priority + (lapseCount : ℚ) * 2
      if cardState = .LEARNING ∨ cardState = .RELEARNING then priority + 100
      else priority

/-- The day difference computed for a REVIEW-state candidate in
`SpacedRepetitionService.getDueCards` (spacedRepetition.ts lines 194–199):
`Math.floor((now.getTime() - progress.dueDate.getTime()) / (1000*60*60*24))`. -/
def reviewDaysDiff (now dueDate : ℚ) : ℚ :=
  jsFloor ((now - dueDate) / (1000 * 60 * 60 * 24))

/-- The skip decision for a REVIEW-state candidate with a non-null `dueDate`
in `getDueCards`: the card is excluded from the queue iff `daysDiff < 0`. -/
def reviewCardSkipped (now dueDate : ℚ) : Prop :=
  reviewDaysDiff now dueDate < 0

instance (now dueDate : ℚ) : Decidable (reviewCardSkipped now dueDate) := by
  unfold reviewCardSkipped; infer_instance

/-- The persisted `UserTheoryProgress` record (prisma schema: columns `id`,
`userId`, `cardId`, `solvedCount`, `createdAt`, `updatedAt`, plus the
spaced-repetition columns `cardState`, `dueDate`, `easeFactor`, `interval`,
`lapseCount`, `lastReviewDate`, `learningStep`, `reviewCount`). Timestamps
are epoch milliseconds. -/
structure UserTheoryProgress where
  id : String
  userId : ℤ
  cardId : String
  solvedCount : ℕ
  createdAt : ℚ
  updatedAt : ℚ
  cardState : CardState
  dueDate : Option ℚ
  easeFactor : ℚ
  interval : ℚ
  lapseCount : ℕ
  lastReviewDate : Option ℚ
  learningStep : ℕ
  reviewCount : ℕ
deriving DecidableEq, Repr

/-- The `data` object of the `prisma.userTheoryProgress.update` call in
`SpacedRepetitionService.reviewCard` (spacedRepetition.ts lines 76–90),
applied to the loaded record: sets the schedule fields from the
`ReviewResult`, increments `reviewCount` by 1 and `lapseCount` by the
lapse increment, increments the legacy `solvedCount` by 1, and stamps
`lastReviewDate`/`updatedAt` with `now`. -/
def reviewCardUpdate (progress : UserTheoryProgress)
    (reviewResult : ReviewResult) (now : ℚ) : UserTheoryProgress :=
  { progress with
    easeFactor := reviewResult.newEaseFactor
    interval := reviewResult.newInterval
    dueDate := some reviewResult.newDueDate
    reviewCount := progress.reviewCount + 1
    lapseCount := progress.lapseCount + reviewResult.lapseCountIncrement
    cardState := reviewResult.newCardState
    learningStep := reviewResult.newLearningStep
    lastReviewDate := some now
    solvedCount := progress.solvedCount + 1
    updatedAt := now }

/-- The `update` branch of the `prisma.userTheoryProgress.upsert` call in
`SpacedRepetitionService.resetCard` (spacedRepetition.ts lines 290–319):
resets every progress field to the NEW-card defaults and stamps
`updatedAt`. -/
def resetCardUpdate (progress : UserTheoryProgress) (now : ℚ) :
    UserTheoryProgress :=
  { progress with
    solvedCount := 0
    easeFactor := 5 / 2
    interval := 1
    dueDate := none
    reviewCount := 0
    lapseCount := 0
    cardState := .NEW
    learningStep := 0
    lastReviewDate := none
    updatedAt := now }

/-! ## Helper lemmas -/

/-- Closed form of `calculatePriority` on a non-null due date. -/
theorem calculatePriority_some_eq (config : SpacedRepetitionConfig)
    (dd easeFactor : ℚ) (lapseCount : ℕ) (cardState : CardState) (now : ℚ) :
    calculatePriority config (some dd) easeFactor lapseCount cardState now =
      max 0 (jsFloor ((now - dd) / 86400000)) * 10 +
        (config.maxEaseFactor - easeFactor) * 5 + (lapseCount : ℚ) * 2 +
        (if cardState = .LEARNING ∨ cardState = .RELEARNING then 100 else 0) := by
  simp only [calculatePriority]
  split_ifs <;> norm_num

/-- The first learning step is at least 1 when the list is nonempty and all
entries are at least 1. -/
theorem one_le_jsIndex_zero (l : List ℚ) (hne : l ≠ [])
    (h : ∀ x ∈ l, 1 ≤ x) : 1 ≤ jsIndex l 0 := by
  cases l with
  | nil => exact absurd rfl hne
  | cons a t => exact h a (List.mem_cons_self a t)

/-- An in-range learning step is at least 1 when all entries are at least 1. -/
theorem one_le_jsIndex_of_lt (l : List ℚ) (i : ℕ) (hi : i < l.length)
    (h : ∀ x ∈ l, 1 ≤ x) : 1 ≤ jsIndex l i := by
  unfold jsIndex
  rw [List.getD_eq_getElem l 0 hi]
  exact h _ (List.getElem_mem hi)

/-- The `a[i] || a[0]` access is at least 1 when the list is nonempty and all
entries are at least 1. -/
theorem one_le_jsIndexOrFirst (l : List ℚ) (i : ℕ) (hne : l ≠ [])
    (h : ∀ x ∈ l, 1 ≤ x) : 1 ≤ jsIndexOrFirst l i := by
  unfold jsIndexOrFirst
  split_ifs with h0
  · exact one_le_jsIndex_zero l hne h
  · by_cases hi : i < l.length
    · exact one_le_jsIndex_of_lt l i hi h
    · exact absurd (List.getD_eq_default l 0 (le_of_not_lt hi)) h0

/-! ## Claims -/

/-- Claim C1: on a REVIEW-state input (any interval ≥ 1, any easeFactor, any
daysLate ≥ 0), rating `again` yields cardState RELEARNING, easeFactor
decreased by 0.2 and floored at `minEaseFactor`, learningStep 0, a lapse
increment of exactly 1, and interval/dueDate equal to `learningSteps[0]`
minutes (the decayed interval is discarded); and the lapse increment is 0
for every other (state, rating) pair. -/
theorem C1_review_again_lapse :
    (∀ (config : SpacedRepetitionConfig)
      (now currentInterval currentEaseFactor daysLate : ℚ)
      (currentLearningStep : ℕ),
      1 ≤ currentInterval → 0 ≤ daysLate →
      (calculateReview config now .REVIEW currentInterval currentEaseFactor
          currentLearningStep .again daysLate).newCardState = .RELEARNING ∧
      (calculateReview config now .REVIEW currentInterval currentEaseFactor
          currentLearningStep .again daysLate).newEaseFactor =
        max config.minEaseFactor (currentEaseFactor - 1 / 5) ∧
      (calculateReview config now .REVIEW currentInterval currentEaseFactor
          currentLearningStep .again daysLate).newLearningStep = 0 ∧
      (calculateReview config now .REVIEW currentInterval currentEaseFactor
          currentLearningStep .again daysLate).lapseCountIncrement = 1 ∧
      (calculateReview config now .REVIEW currentInterval currentEaseFactor
          currentLearningStep .again daysLate).newInterval =
        jsIndex config.learningSteps 0 ∧
      (calculateReview config now .REVIEW currentInterval currentEaseFactor
          currentLearningStep .again daysLate).newDueDate =
        now + jsIndex config.learningSteps 0 * 60 * 1000) ∧
    (∀ (config : SpacedRepetitionConfig) (now : ℚ) (currentState : CardState)
      (currentInterval currentEaseFactor daysLate : ℚ)
      (currentLearningStep : ℕ) (rating : Rating),
      ¬(currentState = .REVIEW ∧ rating = .again) →
      (calculateReview config now currentState currentInterval
          currentEaseFactor currentLearningStep rating
          daysLate).lapseCountIncrement = 0) := by
  constructor
  · intro config now currentInterval currentEaseFactor daysLate
      currentLearningStep _ _
    simp [calculateReview, handleReviewCard, addMinutes]
  · intro config now currentState currentInterval currentEaseFactor daysLate
      currentLearningStep rating h
    cases currentState <;> cases rating <;>
      simp_all [calculateReview, handleNewCard, handleLearningCard,
        handleReviewCard, handleRelearningCard] <;>
      split <;> rfl

/-- Witness for C1 at concrete inputs. -/
theorem C1_witness :
    (calculateReview DEFAULT_CONFIG 0 .REVIEW 10 (5 / 2) 0 .again 3
        ).newCardState = .RELEARNING ∧
    (calculateReview DEFAULT_CONFIG 0 .LEARNING 5 (5 / 2) 0 .good 0
        ).lapseCountIncrement = 0 := by
  constructor
  · exact (C1_review_again_lapse.1 DEFAULT_CONFIG 0 10 (5 / 2) 3 0
      (by norm_num) (by norm_num)).1
  · exact C1_review_again_lapse.2 DEFAULT_CONFIG 0 .LEARNING 5 (5 / 2) 0 0
      .good (by simp)

/-- Claim C2, counterexample: a LEARNING-state card with input easeFactor
1.8 and rating `good` comes back with easeFactor 2.5 (the configured
`initialEaseFactor`), not the input value — the claim that the outcome
easeFactor equals the input easeFactor for every easeFactor value fails. -/
theorem C2_counterexample :
    (calculateReview DEFAULT_CONFIG 0 .LEARNING 1 (9 / 5) 0 .good 0
        ).newEaseFactor = 5 / 2 ∧ (9 / 5 : ℚ) ≠ 5 / 2 := by
  constructor
  · norm_num [calculateReview, handleLearningCard, DEFAULT_CONFIG]
  · norm_num

/-- Claim C2, amended: for every LEARNING-state input — every easeFactor,
learningStep, rating and daysLate — the outcome easeFactor equals the
configured `initialEaseFactor`, irrespective of the input easeFactor; it
therefore equals the input easeFactor exactly when that input is
`initialEaseFactor` (as it is in every reachable LEARNING state). -/
theorem C2_learning_ease :
    ∀ (config : SpacedRepetitionConfig)
      (now currentInterval currentEaseFactor daysLate : ℚ)
      (currentLearningStep : ℕ) (rating : Rating),
      (calculateReview config now .LEARNING currentInterval currentEaseFactor
          currentLearningStep rating daysLate).newEaseFactor =
        config.initialEaseFactor := by
  intro config now currentInterval currentEaseFactor daysLate
    currentLearningStep rating
  cases rating <;> simp [calculateReview, handleLearningCard] <;> split <;> rfl

/-- Claim C3, counterexample: `calculateReview` reads the clock
(`new Date()`) internally, so two invocations on the identical input tuple
(state NEW, interval 1, easeFactor 2.5, learningStep 0, rating `again`,
daysLate 0) observing different clock values return different
`newDueDate`s — the outcome does not depend on the arguments alone. -/
theorem C3_counterexample :
    (calculateReview DEFAULT_CONFIG 0 .NEW 1 (5 / 2) 0 .again 0).newDueDate ≠
      (calculateReview DEFAULT_CONFIG 60000 .NEW 1 (5 / 2) 0 .again 0
        ).newDueDate := by
  norm_num [calculateReview, handleNewCard, DEFAULT_CONFIG, jsIndex,
    addMinutes]

/-- Claim C3, amended: `calculateReview` is a pure function of its arguments
plus the observed clock value: two invocations on the same input tuple agree
on every outcome field except possibly `newDueDate` whatever the clock reads,
and invocations observing the same clock value return fully identical
outcomes. -/
theorem C3_deterministic :
    ∀ (config : SpacedRepetitionConfig) (now now' : ℚ)
      (currentState : CardState)
      (currentInterval currentEaseFactor daysLate : ℚ)
      (currentLearningStep : ℕ) (rating : Rating),
      (calculateReview config now currentState currentInterval
          currentEaseFactor currentLearningStep rating daysLate).newInterval =
        (calculateReview config now' currentState currentInterval
          currentEaseFactor currentLearningStep rating daysLate).newInterval ∧
      (calculateReview config now currentState currentInterval
          currentEaseFactor currentLearningStep rating daysLate
          ).newEaseFactor =
        (calculateReview config now' currentState currentInterval
          currentEaseFactor currentLearningStep rating daysLate
          ).newEaseFactor ∧
      (calculateReview config now currentState currentInterval
          currentEaseFactor currentLearningStep rating daysLate
          ).newCardState =
        (calculateReview config now' currentState currentInterval
          currentEaseFactor currentLearningStep rating daysLate
          ).newCardState ∧
      (calculateReview config now currentState currentInterval
          currentEaseFactor currentLearningStep rating daysLate
          ).newLearningStep =
        (calculateReview config now' currentState currentInterval
          currentEaseFactor currentLearningStep rating daysLate
          ).newLearningStep ∧
      (calculateReview config now currentState currentInterval
          currentEaseFactor currentLearningStep rating daysLate
          ).lapseCountIncrement =
        (calculateReview config now' currentState currentInterval
          currentEaseFactor currentLearningStep rating daysLate
          ).lapseCountIncrement ∧
      (now = now' →
        calculateReview config now currentState currentInterval
          currentEaseFactor currentLearningStep rating daysLate =
        calculateReview config now' currentState currentInterval
          currentEaseFactor currentLearningStep rating daysLate) := by
  intro config now now' currentState currentInterval currentEaseFactor
    daysLate currentLearningStep rating
  refine ⟨?_, ?_, ?_, ?_, ?_, fun h => by rw [h]⟩ <;>
    cases currentState <;> cases rating <;>
      simp only [calculateReview, handleNewCard, handleLearningCard,
        handleReviewCard, handleRelearningCard] <;>
      split_ifs <;> rfl

/-- Witness for C3 at concrete inputs. -/
theorem C3_witness :
    (calculateReview DEFAULT_CONFIG 0 .NEW 1 (5 / 2) 0 .good 0).newInterval =
      (calculateReview DEFAULT_CONFIG 999 .NEW 1 (5 / 2) 0 .good 0
        ).newInterval ∧
    calculateReview DEFAULT_CONFIG 7 .REVIEW 10 (5 / 2) 0 .easy 2 =
      calculateReview DEFAULT_CONFIG 7 .REVIEW 10 (5 / 2) 0 .easy 2 := by
  constructor
  · exact (C3_deterministic DEFAULT_CONFIG 0 999 .NEW 1 (5 / 2) 0 0 .good).1
  · exact (C3_deterministic DEFAULT_CONFIG 7 7 .REVIEW 10 (5 / 2) 2 0
      .easy).2.2.2.2.2 rfl

/-- Claim C4, counterexample: a REVIEW-state candidate whose `dueDate` lies
only half a day (43 200 000 ms) in the past — so fewer than one full day has
elapsed — is NOT skipped by `getDueCards` (its `daysDiff` is 0, and the code
skips only on `daysDiff < 0`), contradicting the claimed strict
day-granularity gating. -/
theorem C4_counterexample :
    (43200000 : ℚ) - 0 < 86400000 ∧ ¬ reviewCardSkipped 43200000 0 := by
  constructor
  · norm_num
  · norm_num [reviewCardSkipped, reviewDaysDiff, jsFloor]

/-- Claim C4, amended: in the due-card selection a REVIEW-state candidate
with a non-null `dueDate` is skipped precisely when `now` is strictly before
`dueDate` (i.e. `floor((now − dueDate)/1 day) < 0`); once `now ≥ dueDate` —
including a card overdue by only part of a day — the candidate is
included. -/
theorem C4_review_gating :
    ∀ now dueDate : ℚ, reviewCardSkipped now dueDate ↔ now < dueDate := by
  intro now dueDate
  unfold reviewCardSkipped reviewDaysDiff jsFloor
  have h1 : ((⌊(now - dueDate) / (1000 * 60 * 60 * 24)⌋ : ℤ) : ℚ) < 0 ↔
      (⌊(now - dueDate) / (1000 * 60 * 60 * 24)⌋ : ℤ) < 0 := by
    exact_mod_cast Iff.rfl
  rw [h1, Int.floor_lt]
  push_cast
  rw [div_lt_iff (by norm_num : (0 : ℚ) < 1000 * 60 * 60 * 24)]
  constructor <;> intro h <;> linarith

/-- Claim C5: for every (state, rating) pair, if the configuration satisfies
`minEaseFactor ≤ initialEaseFactor ≤ maxEaseFactor` and the input easeFactor
lies in `[minEaseFactor, maxEaseFactor]`, then the outcome easeFactor of
`calculateReview` also lies in `[minEaseFactor, maxEaseFactor]`. -/
theorem C5_ease_bounds :
    ∀ (config : SpacedRepetitionConfig) (now : ℚ)
      (currentState : CardState)
      (currentInterval currentEaseFactor daysLate : ℚ)
      (currentLearningStep : ℕ) (rating : Rating),
      config.minEaseFactor ≤ config.initialEaseFactor →
      config.initialEaseFactor ≤ config.maxEaseFactor →
      config.minEaseFactor ≤ currentEaseFactor →
      currentEaseFactor ≤ config.maxEaseFactor →
      config.minEaseFactor ≤
        (calculateReview config now currentState currentInterval
          currentEaseFactor currentLearningStep rating
          daysLate).newEaseFactor ∧
      (calculateReview config now currentState currentInterval
          currentEaseFactor currentLearningStep rating
          daysLate).newEaseFactor ≤ config.maxEaseFactor := by
  intro config now currentState currentInterval currentEaseFactor daysLate
    currentLearningStep rating h1 h2 h3 h4
  have hmm : config.minEaseFactor ≤ config.maxEaseFactor := le_trans h1 h2
  cases currentState <;> cases rating <;>
    simp only [calculateReview, handleNewCard, handleLearningCard,
      handleReviewCard, handleRelearningCard] <;>
    (try split_ifs) <;>
    constructor <;>
    first
      | exact h1
      | exact h2
      | exact h3
      | exact h4
      | exact le_max_left _ _
      | exact min_le_left _ _
      | exact max_le hmm (by linarith)
      | exact le_min hmm (by linarith)

/-- Witness for C5 at concrete inputs. -/
theorem C5_witness :
    (13 / 10 : ℚ) ≤
      (calculateReview DEFAULT_CONFIG 0 .REVIEW 10 2 0 .easy 0
        ).newEaseFactor ∧
    (calculateReview DEFAULT_CONFIG 0 .REVIEW 10 2 0 .easy 0
        ).newEaseFactor ≤ 5 / 2 := by
  have h := C5_ease_bounds DEFAULT_CONFIG 0 .REVIEW 10 2 0 0 .easy
    (by norm_num [DEFAULT_CONFIG]) (by norm_num [DEFAULT_CONFIG])
    (by norm_num [DEFAULT_CONFIG]) (by norm_num [DEFAULT_CONFIG])
  exact h

/-- Claim C6, counterexample: with a configuration whose `learningSteps` is
the empty list — which vacuously satisfies "every entry of learningSteps is
≥ 1" and has `graduatingInterval = 1 ≥ 1`, `easyInterval = 4 ≥ 1` — a NEW
card rated `again` receives `learningSteps[0]`, which is `undefined` in the
source (modelled 0) and not ≥ 1, so the claim's hypotheses do not suffice. -/
theorem C6_counterexample :
    ¬ ((∀ x ∈ ({ DEFAULT_CONFIG with learningSteps := [] } :
          SpacedRepetitionConfig).learningSteps, (1 : ℚ) ≤ x) →
      1 ≤ ({ DEFAULT_CONFIG with learningSteps := [] } :
          SpacedRepetitionConfig).graduatingInterval →
      1 ≤ ({ DEFAULT_CONFIG with learningSteps := [] } :
          SpacedRepetitionConfig).easyInterval →
      (1 : ℚ) ≤ 1 →
      1 ≤ (calculateReview { DEFAULT_CONFIG with learningSteps := [] } 0
          .NEW 1 (5 / 2) 0 .again 0).newInterval) := by
  intro h
  have := h (by simp) (by norm_num [DEFAULT_CONFIG])
    (by norm_num [DEFAULT_CONFIG]) le_rfl
  norm_num [calculateReview, handleNewCard, jsIndex] at this

/-- Claim C6, amended: for every (state, rating) pair and every input with
interval ≥ 1, provided the configuration has a NONEMPTY `learningSteps`
whose entries are all ≥ 1, `graduatingInterval ≥ 1` and `easyInterval ≥ 1`,
the outcome interval of `calculateReview` is ≥ 1. -/
theorem C6_interval_ge_one :
    ∀ (config : SpacedRepetitionConfig) (now : ℚ)
      (currentState : CardState)
      (currentInterval currentEaseFactor daysLate : ℚ)
      (currentLearningStep : ℕ) (rating : Rating),
      config.learningSteps ≠ [] →
      (∀ x ∈ config.learningSteps, 1 ≤ x) →
      1 ≤ config.graduatingInterval →
      1 ≤ config.easyInterval →
      1 ≤ currentInterval →
      1 ≤ (calculateReview config now currentState currentInterval
        currentEaseFactor currentLearningStep rating daysLate).newInterval := by
  intro config now currentState currentInterval currentEaseFactor daysLate
    currentLearningStep rating hne hsteps hgrad heasy hint
  have hzero := one_le_jsIndex_zero config.learningSteps hne hsteps
  cases currentState <;> cases rating <;>
    simp only [calculateReview, handleNewCard, handleLearningCard,
      handleReviewCard, handleRelearningCard]
  case NEW.again => exact hzero
  case NEW.hard => exact hzero
  case NEW.good => exact one_le_jsIndexOrFirst config.learningSteps 1 hne hsteps
  case NEW.easy => exact heasy
  case LEARNING.again => exact hzero
  case LEARNING.hard =>
    exact one_le_jsIndexOrFirst config.learningSteps currentLearningStep hne
      hsteps
  case LEARNING.good =>
    split_ifs with hsplit
    · exact hgrad
    · exact one_le_jsIndex_of_lt config.learningSteps
        (currentLearningStep + 1) (lt_of_not_le hsplit) hsteps
  case LEARNING.easy => exact heasy
  case REVIEW.again => exact hzero
  case REVIEW.hard => exact le_max_left 1 _
  case REVIEW.good => exact le_max_left 1 _
  case REVIEW.easy => exact le_max_left 1 _
  case RELEARNING.again => exact hzero
  case RELEARNING.hard =>
    exact one_le_jsIndexOrFirst config.learningSteps currentLearningStep hne
      hsteps
  case RELEARNING.good =>
    split_ifs with hsplit
    · exact le_max_left 1 _
    · exact one_le_jsIndex_of_lt config.learningSteps
        (currentLearningStep + 1) (lt_of_not_le hsplit) hsteps
  case RELEARNING.easy => exact le_max_left 1 _

/-- Witness for C6 at concrete inputs. -/
theorem C6_witness :
    1 ≤ (calculateReview DEFAULT_CONFIG 0 .REVIEW 10 2 0 .hard 0
        ).newInterval := by
  refine C6_interval_ge_one DEFAULT_CONFIG 0 .REVIEW 10 2 0 0 .hard
    (by simp [DEFAULT_CONFIG]) ?_ (by norm_num [DEFAULT_CONFIG])
    (by norm_num [DEFAULT_CONFIG]) (by norm_num)
  intro x hx
  simp only [DEFAULT_CONFIG, List.mem_cons, List.not_mem_nil, or_false] at hx
  rcases hx with h | h <;> rw [h] <;> norm_num

/-- Claim C7: for every progress snapshot and every daysLate, the interval
reported by `getNextReviewOptions` for each rating equals the `newInterval`
of `calculateReview` invoked with that rating on the same snapshot — no
divergent computation path and no unit conversion. -/
theorem C7_options_match_review :
    ∀ (config : SpacedRepetitionConfig) (now : ℚ)
      (currentState : CardState)
      (currentInterval currentEaseFactor daysLate : ℚ)
      (currentLearningStep : ℕ),
      getNextReviewOptions config now currentState currentInterval
          currentEaseFactor currentLearningStep daysLate =
        { again := (calculateReview config now currentState currentInterval
            currentEaseFactor currentLearningStep .again daysLate).newInterval
          hard := (calculateReview config now currentState currentInterval
            currentEaseFactor currentLearningStep .hard daysLate).newInterval
          good := (calculateReview config now currentState currentInterval
            currentEaseFactor currentLearningStep .good daysLate).newInterval
          easy := (calculateReview config now currentState currentInterval
            currentEaseFactor currentLearningStep .easy
            daysLate).newInterval } := by
  intro config now currentState currentInterval currentEaseFactor daysLate
    currentLearningStep
  simp only [getNextReviewOptions, daysToDays, ite_self]

/-- Claim C8: the priority score of a card with a non-null dueDate is
`daysOverdue*10 + (maxEaseFactor − easeFactor)*5 + lapseCount*2 + 100·[state
is LEARNING or RELEARNING]` with `daysOverdue = max(0, floor((now −
dueDate)/1 day))`, and the priority of a null dueDate is 0 regardless of the
other arguments. -/
theorem C8_priority_formula :
    (∀ (config : SpacedRepetitionConfig) (easeFactor : ℚ) (lapseCount : ℕ)
      (cardState : CardState) (now : ℚ),
      calculatePriority config none easeFactor lapseCount cardState now = 0) ∧
    (∀ (config : SpacedRepetitionConfig) (dueDate easeFactor : ℚ)
      (lapseCount : ℕ) (cardState : CardState) (now : ℚ),
      calculatePriority config (some dueDate) easeFactor lapseCount cardState
          now =
        max 0 (jsFloor ((now - dueDate) / 86400000)) * 10 +
          (config.maxEaseFactor - easeFactor) * 5 + (lapseCount : ℚ) * 2 +
          (if cardState = .LEARNING ∨ cardState = .RELEARNING then 100
           else 0)) := by
  constructor
  · intro config easeFactor lapseCount cardState now
    rfl
  · intro config dueDate easeFactor lapseCount cardState now
    exact calculatePriority_some_eq config dueDate easeFactor lapseCount
      cardState now

/-- Claim C9: with a non-null dueDate and all else equal, the priority score
is monotonically non-decreasing in how far `now` exceeds `dueDate` (hence in
daysOverdue), in `lapseCount`, and in `(maxEaseFactor − easeFactor)`. -/
theorem C9_priority_monotone :
    ∀ (config : SpacedRepetitionConfig) (dueDate easeFactor easeFactor' : ℚ)
      (lapseCount lapseCount' : ℕ) (cardState : CardState) (now now' : ℚ),
      now ≤ now' →
      lapseCount ≤ lapseCount' →
      config.maxEaseFactor - easeFactor ≤ config.maxEaseFactor - easeFactor' →
      calculatePriority config (some dueDate) easeFactor lapseCount cardState
          now ≤
        calculatePriority config (some dueDate) easeFactor' lapseCount'
          cardState now' := by
  intro config dueDate easeFactor easeFactor' lapseCount lapseCount' cardState
    now now' hnow hlapse hease
  rw [calculatePriority_some_eq, calculatePriority_some_eq]
  have hdays : max 0 (jsFloor ((now - dueDate) / 86400000)) ≤
      max 0 (jsFloor ((now' - dueDate) / 86400000)) := by
    apply max_le_max le_rfl
    unfold jsFloor
    have : (now - dueDate) / 86400000 ≤ (now' - dueDate) / 86400000 := by
      apply div_le_div_of_nonneg_right ?_ (by norm_num)
      linarith
    exact_mod_cast Int.floor_le_floor this
  refine add_le_add (add_le_add (add_le_add ?_ ?_) ?_) le_rfl
  · exact mul_le_mul_of_nonneg_right hdays (by norm_num)
  · exact mul_le_mul_of_nonneg_right hease (by norm_num)
  · exact mul_le_mul_of_nonneg_right (by exact_mod_cast hlapse) (by norm_num)

/-- Witness for C9 at concrete inputs. -/
theorem C9_witness :
    calculatePriority DEFAULT_CONFIG (some 0) 2 1 .REVIEW 86400000 ≤
      calculatePriority DEFAULT_CONFIG (some 0) (3 / 2) 2 .REVIEW
        (2 * 86400000) := by
  exact C9_priority_monotone DEFAULT_CONFIG 0 2 (3 / 2) 1 2 .REVIEW 86400000
    (2 * 86400000) (by norm_num) (by norm_num) (by norm_num [DEFAULT_CONFIG])

/-- Claim C10: a successful review submission increments the persisted
record's legacy `solvedCount` by exactly 1 alongside the documented updates,
the reset operation sets `solvedCount` back to 0, and a review modifies no
persisted field beyond the listed ones — `id`, `userId`, `cardId` and
`createdAt` are untouched. -/
theorem C10_solvedCount_frame :
    ∀ (progress : UserTheoryProgress) (reviewResult : ReviewResult)
      (now now' : ℚ),
      (reviewCardUpdate progress reviewResult now).solvedCount =
        progress.solvedCount + 1 ∧
      (resetCardUpdate progress now').solvedCount = 0 ∧
      (reviewCardUpdate progress reviewResult now).id = progress.id ∧
      (reviewCardUpdate progress reviewResult now).userId = progress.userId ∧
      (reviewCardUpdate progress reviewResult now).cardId = progress.cardId ∧
      (reviewCardUpdate progress reviewResult now).createdAt =
        progress.createdAt ∧
      (reviewCardUpdate progress reviewResult now).easeFactor =
        reviewResult.newEaseFactor ∧
      (reviewCardUpdate progress reviewResult now).interval =
        reviewResult.newInterval ∧
      (reviewCardUpdate progress reviewResult now).dueDate =
        some reviewResult.newDueDate ∧
      (reviewCardUpdate progress reviewResult now).reviewCount =
        progress.reviewCount + 1 ∧
      (reviewCardUpdate progress reviewResult now).lapseCount =
        progress.lapseCount + reviewResult.lapseCountIncrement ∧
      (reviewCardUpdate progress reviewResult now).cardState =
        reviewResult.newCardState ∧
      (reviewCardUpdate progress reviewResult now).learningStep =
        reviewResult.newLearningStep ∧
      (reviewCardUpdate progress reviewResult now).lastReviewDate =
        some now ∧
      (reviewCardUpdate progress reviewResult now).updatedAt = now := by
  intro progress reviewResult now now'
  exact ⟨rfl, rfl, rfl, rfl, rfl, rfl, rfl, rfl, rfl, rfl, rfl, rfl, rfl,
    rfl, rfl⟩
